import Mathlib

set_option maxRecDepth 4000

/-- JSON values as manipulated by the pipeline code. The integer subset of
numbers suffices for every construct the pipelines exercise; a non-integer
number in the input is reported as a structural-parse error by the model. -/
inductive Json where
  | null : Json
  | bool : Bool → Json
  | num : Int → Json
  | str : String → Json
  | arr : List Json → Json
  | obj : List (String × Json) → Json

def lookupField (kvs : List (String × Json)) (key : String) : Option Json :=
  match kvs with
  | [] => none
  | (k, v) :: rest => if k == key then some v else lookupField rest key

def Json.getField (j : Json) (key : String) : Option Json :=
  match j with
  | .obj kvs => lookupField kvs key
  | _ => none

/-- Whitespace as trimmed by trim on the inputs in scope (ASCII subset). -/
def isWsChar (c : Char) : Bool :=
  c == ' ' || c == '\t' || c == '\n' || c == '\r'

/-- Model of trim: drop whitespace at both ends. -/
def trimL (s : List Char) : List Char :=
  ((s.dropWhile isWsChar).reverse.dropWhile isWsChar).reverse

def isPrefixList (pat s : List Char) : Bool :=
  match pat, s with
  | [], _ => true
  | _ :: _, [] => false
  | p :: ps, c :: cs => p == c && isPrefixList ps cs

/-- Index of the first occurrence of pat in s, if any. -/
def firstOccurFrom (pat : List Char) (s : List Char) : Option Nat :=
  if isPrefixList pat s then some 0
  else
    match s with
    | [] => none
    | _ :: rest => (firstOccurFrom pat rest).map (fun n => n + 1)

def containsSubL (pat s : List Char) : Bool :=
  match s with
  | [] => isPrefixList pat []
  | c :: rest => isPrefixList pat (c :: rest) || containsSubL pat rest

/-- Model of replace: left-to-right, non-overlapping replacement of every
occurrence of pat by rep. Fueled so the kernel can evaluate it; the wrapper
supplies enough fuel for complete traversal. -/
def replaceAllFuel : Nat → List Char → List Char → List Char → List Char
  | 0, _, _, s => s
  | fuel + 1, pat, rep, s =>
    if pat.isEmpty then s
    else if isPrefixList pat s then rep ++ replaceAllFuel fuel pat rep (s.drop pat.length)
    else
      match s with
      | [] => []
      | c :: rest => c :: replaceAllFuel fuel pat rep rest

def replaceAllL (pat rep s : List Char) : List Char :=
  replaceAllFuel (s.length + 1) pat rep s

/-- Model of trim_start_matches: repeatedly strip the pattern from the front. -/
def trimStartMatchesFuel : Nat → List Char → List Char → List Char
  | 0, _, s => s
  | fuel + 1, pat, s =>
    if pat.isEmpty then s
    else if isPrefixList pat s then trimStartMatchesFuel fuel pat (s.drop pat.length)
    else s

def trimStartMatchesL (pat s : List Char) : List Char :=
  trimStartMatchesFuel (s.length + 1) pat s

/-- Model of trim_end_matches via reversal. -/
def trimEndMatchesL (pat s : List Char) : List Char :=
  (trimStartMatchesL pat.reverse s.reverse).reverse

def parseStringRest : List Char → List Char → Except String (String × List Char)
  | _, [] => .error ("EOF while parsing a string")
  | acc, '"' :: rest => .ok (String.mk acc.reverse, rest)
  | acc, '\\' :: e :: rest =>
    match e with
    | '"' => parseStringRest ('"' :: acc) rest
    | '\\' => parseStringRest ('\\' :: acc) rest
    | '/' => parseStringRest ('/' :: acc) rest
    | 'n' => parseStringRest ('\n' :: acc) rest
    | 't' => parseStringRest ('\t' :: acc) rest
    | 'r' => parseStringRest ('\r' :: acc) rest
    | _ => .error ("unsupported escape sequence in a string")
  | acc, c :: rest => parseStringRest (c :: acc) rest

def takeDigits (s : List Char) : List Char × List Char :=
  match s with
  | [] => ([], [])
  | c :: rest =>
    if c.isDigit then
      let p := takeDigits rest
      (c :: p.1, p.2)
    else ([], c :: rest)

def digitsToNat (ds : List Char) : Nat :=
  ds.foldl (fun n c => n * 10 + (c.toNat - 48)) 0

def parseNum (s : List Char) : Except String (Json × List Char) :=
  match s with
  | '-' :: rest =>
    let p := takeDigits rest
    if p.1.isEmpty then .error ("expected a number") else .ok (.num (-(digitsToNat p.1 : Int)), p.2)
  | _ =>
    let p := takeDigits s
    if p.1.isEmpty then .error ("expected a number") else .ok (.num (digitsToNat p.1), p.2)

mutual

/-- Model of the structural (serde_json) parse of one JSON value; returns the
value and the unconsumed remainder, or a diagnostic message. -/
def parseVal : Nat → List Char → Except String (Json × List Char)
  | 0, _ => .error ("recursion limit exceeded")
  | fuel + 1, s =>
    match s.dropWhile isWsChar with
    | [] => .error ("EOF while parsing a value")
    | 'n' :: 'u' :: 'l' :: 'l' :: rest => .ok (.null, rest)
    | 't' :: 'r' :: 'u' :: 'e' :: rest => .ok (.bool true, rest)
    | 'f' :: 'a' :: 'l' :: 's' :: 'e' :: rest => .ok (.bool false, rest)
    | '"' :: rest => (parseStringRest [] rest).map (fun p => (.str p.1, p.2))
    | '\x7b' :: rest => parseObjItems fuel rest true []
    | '[' :: rest => parseArrItems fuel rest true []
    | c :: rest => if c == '-' || c.isDigit then parseNum (c :: rest) else .error ("expected a JSON value")

def parseObjItems : Nat → List Char → Bool → List (String × Json) → Except String (Json × List Char)
  | 0, _, _, _ => .error ("recursion limit exceeded")
  | fuel + 1, s, first, acc =>
    match s.dropWhile isWsChar with
    | '\x7d' :: rest =>
      if first then .ok (.obj acc.reverse, rest)
      else .error ("expected a key while parsing an object")
    | '"' :: rest =>
      match parseStringRest [] rest with
      | .error e => .error e
      | .ok (key, rest2) =>
        match rest2.dropWhile isWsChar with
        | ':' :: rest3 =>
          match parseVal fuel rest3 with
          | .error e => .error e
          | .ok (v, rest4) =>
            match rest4.dropWhile isWsChar with
            | ',' :: rest5 => parseObjItems fuel rest5 false ((key, v) :: acc)
            | '\x7d' :: rest5 => .ok (.obj (((key, v) :: acc).reverse), rest5)
            | _ => .error ("EOF while parsing an object")
        | _ => .error ("expected a colon while parsing an object")
    | _ => .error ("EOF while parsing an object")

def parseArrItems : Nat → List Char → Bool → List Json → Except String (Json × List Char)
  | 0, _, _, _ => .error ("recursion limit exceeded")
  | fuel + 1, s, first, acc =>
    match s.dropWhile isWsChar with
    | ']' :: rest =>
      if first then .ok (.arr acc.reverse, rest)
      else .error ("expected a value while parsing an array")
    | s2 =>
      match parseVal fuel s2 with
      | .error e => .error e
      | .ok (v, rest) =>
        match rest.dropWhile isWsChar with
        | ',' :: rest2 => parseArrItems fuel rest2 false (v :: acc)
        | ']' :: rest2 => .ok (.arr ((v :: acc).reverse), rest2)
        | _ => .error ("EOF while parsing an array")

end

/-- Parse a complete JSON document (no trailing non-whitespace allowed). -/
def parseJson (s : String) : Except String Json :=
  match parseVal (2 * s.length + 2) s.data with
  | .error e => .error e
  | .ok (v, rest) =>
    if (rest.dropWhile isWsChar).isEmpty then .ok v
    else .error ("trailing characters")

structure TinyFunctionCallSignature where
  name : String
  arguments : Json

structure GorillaFunctionCallSignature where
  name : String
  arguments : Json

/-- Model of deserializing a name/arguments signature struct from a string:
the document must be an object carrying a string field name and a field
arguments of any shape. -/
def decodeNameArguments (s : String) : Except String (String × Json) :=
  match parseJson s with
  | .error e => .error e
  | .ok (.obj kvs) =>
    match lookupField kvs ("name") with
    | some (.str n) =>
      match lookupField kvs ("arguments") with
      | some a => .ok (n, a)
      | none => .error ("missing field arguments")
    | some _ => .error ("invalid type for field name")
    | none => .error ("missing field name")
  | .ok _ => .error ("invalid type: expected a map")

def decodeTinySignature (s : String) : Except String TinyFunctionCallSignature :=
  (decodeNameArguments s).map (fun p => ⟨p.1, p.2⟩)

def decodeGorillaSignature (s : String) : Except String GorillaFunctionCallSignature :=
  (decodeNameArguments s).map (fun p => ⟨p.1, p.2⟩)

/-- Modelled from the spec: message roles of a ConversationMessage; the core
emits assistant for tool outcomes and system for advertisements. -/
inductive Role where
  | system : Role
  | user : Role
  | assistant : Role

/-- Modelled from the spec: ConversationMessage carries a role and a content
string; the constructors live outside src/ and build a message of the given
role with the given content. -/
structure ChatMessage where
  role : Role
  content : String

def ChatMessage.assistant (content : String) : ChatMessage := ⟨Role.assistant, content⟩

def ChatMessage.system (content : String) : ChatMessage := ⟨Role.system, content⟩

/-- TurnResponse shape; its fields appear literally in the record expressions
of both pipelines. Trailer data is always absent in these pipelines, so its
payload type is irrelevant and is kept abstractly as Json. -/
structure ChatMessageResponse where
  model : String
  created_at : String
  message : Option ChatMessage
  done : Bool
  final_data : Option Json

/-- Modelled from the spec: OllamaError lives outside src/. Per the spec the
failure content carries the error text verbatim (a FencedJSON lookup miss
yields content exactly Tool not found), so the error is modelled as its
message string and its textual rendering as the identity; a structural-parse
failure carries the diagnostic produced by the parser model. -/
abbrev OllamaError := String

/-- Capability contract consumed by the pipelines: name, description,
parameter schema, and an invocation behavior producing a textual result or an
error. The asynchronous invocation is modelled as a pure function. -/
structure Tool where
  name : String
  description : String
  parameters : Json
  run : Json → Except OllamaError String

/-- Advertisement serialization shared verbatim by both pipeline files: a
declaration with a type discriminator and a nested function object holding
name, description and the raw parameter schema. Keys are listed in the sorted
order in which the serde map iterates; access is by key lookup. -/
def convert_to_openai_tool (tool : Tool) : Json :=
  Json.obj
    [("function", Json.obj
        [("description", Json.str tool.description),
         ("name", Json.str tool.name),
         ("parameters", tool.parameters)]),
     ("type", Json.str ("function"))]

def advertName (decl : Json) : Option Json :=
  (decl.getField ("function")).bind (fun f => f.getField ("name"))

def advertDescription (decl : Json) : Option Json :=
  (decl.getField ("function")).bind (fun f => f.getField ("description"))

def advertParameterSchema (decl : Json) : Option Json :=
  (decl.getField ("function")).bind (fun f => f.getField ("parameters"))

def advertType (decl : Json) : Option Json :=
  decl.getField ("type")

/-- Default query hook of the shared trait RequestParserBase: identity. -/
def formatQueryDefault (input : String) : String := input

/-- Default response hook of the shared trait RequestParserBase: identity. -/
def formatResponseDefault (response : String) : String := response

namespace TinyFunctionCall

def format_tool_response (function_response : String) : String :=
  "<tool_response>\n" ++ function_response ++ "\n</tool_response>\n"

/-- The line-break stripping step of the body normalizer: replace of the
newline character by the empty string. -/
def stripLineBreaks (s : List Char) : List Char := s.filter (fun c => c != '\n')

/-- Body normalization applied to the text captured between the tool-call
tags: strip line breaks, then collapse doubled opening braces, then collapse
doubled closing braces. -/
def normalizeBody (body : String) : String :=
  String.mk (replaceAllL ("\x7d\x7d".data) ("\x7d".data)
    (replaceAllL ("\x7b\x7b".data) ("\x7b".data) (stripLineBreaks body.data)))

/-- Locate the first non-greedy tagged region: the first opening tag, matched
with the first closing tag after it, body possibly spanning lines; the body
is normalized before being returned. -/
def extract_tool_call (content : String) : Option String :=
  match firstOccurFrom ("<tool_call>".data) content.data with
  | none => none
  | some i =>
    let afterOpen := content.data.drop (i + ("<tool_call>".data).length)
    match firstOccurFrom ("</tool_call>".data) afterOpen with
    | none => none
    | some j => some (normalizeBody (String.mk (afterOpen.take j)))

/-- The fixed feedback template of the TaggedBlock error handler, with the
error text embedded between the response tags. -/
def errorTemplate (error : OllamaError) : String :=
  "<tool_response>\n" ++
    ("There was an error parsing function calls\n Here\x27s the error stack trace: "
      ++ error ++ "\nPlease call the function again with correct syntax") ++
    "</tool_response>"

def error_handler (error : OllamaError) : ChatMessageResponse :=
  { model := ""
    created_at := ""
    message := some (ChatMessage.assistant (errorTemplate error))
    done := true
    final_data := none }

def function_call_with_history (model_name : String) (tool_params : Json) (tool : Tool) :
    Except ChatMessageResponse ChatMessageResponse :=
  match tool.run tool_params with
  | .ok result =>
    .ok { model := model_name
          created_at := ""
          message := some (ChatMessage.assistant (format_tool_response result))
          done := true
          final_data := none }
  | .error e => .error (error_handler e)

def parse (input : String) (model_name : String) (tools : List Tool) :
    Except ChatMessageResponse ChatMessageResponse :=
  match extract_tool_call input with
  | some tool_response_str =>
    match decodeTinySignature tool_response_str with
    | .ok response =>
      match tools.find? (fun t => t.name == response.name) with
      | some tool => function_call_with_history model_name response.arguments tool
      | none => .error (error_handler ("Tool name not found"))
    | .error e => .error (error_handler e)
  | none => .error (error_handler ("Error while extracting <tool_call> tags."))

def format_query (input : String) : String :=
  input ++ "\nThis is the first turn and you don\x27t have <tool_results> to analyze yet"

def format_response (response : String) : String :=
  "Agent iteration to assist with user query: " ++ response

end TinyFunctionCall

namespace GorillaFunctionCall

/-- Body extraction of the FencedJSON dialect, translated from the source
chain: trim, strip leading json fence markers, strip trailing fence markers,
trim. -/
def clean_tool_call (json_str : String) : String :=
  String.mk (trimL (trimEndMatchesL ("```".data)
    (trimStartMatchesL ("```json".data) (trimL json_str.data))))

def error_handler (error : OllamaError) : ChatMessageResponse :=
  { model := ""
    created_at := ""
    message := some (ChatMessage.assistant error)
    done := true
    final_data := none }

def function_call_with_history (model_name : String) (tool_params : Json) (tool : Tool) :
    Except ChatMessageResponse ChatMessageResponse :=
  match tool.run tool_params with
  | .ok result =>
    .ok { model := model_name
          created_at := ""
          message := some (ChatMessage.assistant result)
          done := true
          final_data := none }
  | .error e => .error (error_handler e)

def parse (input : String) (model_name : String) (tools : List Tool) :
    Except ChatMessageResponse ChatMessageResponse :=
  match decodeGorillaSignature (clean_tool_call input) with
  | .ok response =>
    match tools.find? (fun t => t.name == response.name) with
    | some tool => function_call_with_history model_name response.arguments tool
    | none => .error (error_handler ("Tool not found"))
  | .error e => .error (error_handler e)

/-- The FencedJSON pipeline does not override the trait default. -/
def format_query (input : String) : String := formatQueryDefault input

/-- The FencedJSON pipeline does not override the trait default. -/
def format_response (response : String) : String := formatResponseDefault response

end GorillaFunctionCall

def dropStartOnceL (pat s : List Char) : List Char :=
  if isPrefixList pat s then s.drop pat.length else s

def dropEndOnceL (pat s : List Char) : List Char :=
  (dropStartOnceL pat.reverse s.reverse).reverse

/-- The C7 claim read literally: remove a leading json fence marker and a
trailing fence marker from the raw input, then trim surrounding whitespace,
in that order. Stated for comparison with the extraction from the source. -/
def fencedExtractClaimed (s : String) : String :=
  String.mk (trimL (dropEndOnceL ("```".data) (dropStartOnceL ("```json".data) s.data)))

/-- The C7 claim as amended to match the source: trim surrounding whitespace
first, then strip leading json fence markers and trailing fence markers
(each repeatedly), then trim the surrounding whitespace the markers exposed. -/
def fencedExtractAmended (s : String) : String :=
  String.mk (trimL (trimEndMatchesL ("```".data)
    (trimStartMatchesL ("```json".data) (trimL s.data))))

/-- The scenario capability: named get_weather, invocation always succeeds
with the textual result 22C. -/
def getWeatherTool : Tool :=
  { name := "get_weather"
    description := "Weather lookup"
    parameters := Json.obj []
    run := fun _ => .ok ("22C") }

def toolWeatherLower : Tool :=
  { name := "weather"
    description := "lower-case weather"
    parameters := Json.obj []
    run := fun _ => .ok ("w") }

def toolDupA : Tool :=
  { name := "dup"
    description := "first entry"
    parameters := Json.obj []
    run := fun _ => .ok ("A") }

def toolDupB : Tool :=
  { name := "dup"
    description := "second entry"
    parameters := Json.obj []
    run := fun _ => .ok ("B") }

/-- Replacement is the identity on a string that contains no occurrence of
the pattern. -/
theorem replaceAllFuel_of_not_contains (fuel : Nat) (pat rep : List Char) :
    ∀ s : List Char, containsSubL pat s = false → replaceAllFuel fuel pat rep s = s := by
  induction fuel with
  | zero => intro s _; rfl
  | succ n ih =>
    intro s h
    cases s with
    | nil =>
      by_cases hp : pat.isEmpty = true
      · simp [replaceAllFuel, hp]
      · have hpre : isPrefixList pat [] = false := by simpa [containsSubL] using h
        simp [replaceAllFuel, hp, hpre]
    | cons c rest =>
      have h2 : isPrefixList pat (c :: rest) = false ∧ containsSubL pat rest = false := by
        simpa [containsSubL] using h
      by_cases hp : pat.isEmpty = true
      · simp [replaceAllFuel, hp]
      · simp [replaceAllFuel, hp, h2.1]
        exact ih rest h2.2

theorem replaceAllL_of_not_contains (pat rep s : List Char)
    (h : containsSubL pat s = false) : replaceAllL pat rep s = s :=
  replaceAllFuel_of_not_contains (s.length + 1) pat rep s h

/-- Every failure content of the TaggedBlock handler is wrapped between the
fixed response tags. -/
theorem tiny_handler_wrapped (e : OllamaError) :
    ∃ mid : String, (TinyFunctionCall.error_handler e).message =
      some (ChatMessage.assistant ("<tool_response>\n" ++ mid ++ "</tool_response>")) :=
  ⟨"There was an error parsing function calls\n Here\x27s the error stack trace: "
      ++ e ++ "\nPlease call the function again with correct syntax", rfl⟩

/-- C1 (amended): for every TaggedBlock input whose extracted, normalized body
decodes to an intent naming a registered tool whose invocation succeeds with
textual result r, parse returns success with message content exactly the
result wrapped in the fixed response tags; in the concrete scenario the
intent must list the arguments field before the name field, because the
brace-collapse normalization corrupts a body whose text ends in two closing
braces. -/
theorem c1_tagged_success (input model_name body : String) (tools : List Tool)
    (sig : TinyFunctionCallSignature) (tool : Tool) (r : String)
    (hex : TinyFunctionCall.extract_tool_call input = some body)
    (hdec : decodeTinySignature body = Except.ok sig)
    (hfind : tools.find? (fun t => t.name == sig.name) = some tool)
    (hrun : tool.run sig.arguments = Except.ok r) :
    TinyFunctionCall.parse input model_name tools =
      Except.ok
        { model := model_name
          created_at := ""
          message := some (ChatMessage.assistant ("<tool_response>\n" ++ r ++ "\n</tool_response>\n"))
          done := true
          final_data := none } := by
  simp only [TinyFunctionCall.parse, hex, hdec, hfind,
    TinyFunctionCall.function_call_with_history, hrun]
  rfl

/-- C1 witness: the amended scenario, with the arguments field first, yields
success with the wrapped result. -/
theorem c1_witness :
    TinyFunctionCall.parse ("<tool_call>\x7b\"arguments\": \x7b\x7d, \"name\": \"get_weather\"\x7d</tool_call>")
        ("m") [getWeatherTool] =
      Except.ok
        { model := "m"
          created_at := ""
          message := some (ChatMessage.assistant ("<tool_response>\n22C\n</tool_response>\n"))
          done := true
          final_data := none } :=
  c1_tagged_success ("<tool_call>\x7b\"arguments\": \x7b\x7d, \"name\": \"get_weather\"\x7d</tool_call>")
    ("m") ("\x7b\"arguments\": \x7b\x7d, \"name\": \"get_weather\"\x7d") [getWeatherTool]
    ⟨"get_weather", Json.obj []⟩ getWeatherTool ("22C") rfl rfl rfl rfl

/-- C1 counterexample: on the scenario input exactly as the claim states it,
with the registry containing the get_weather capability, parse does not
succeed: the closing-brace collapse of the normalizer turns the trailing
brace pair of the body into a single brace, leaving the intent structurally
unbalanced, so the structural parse fails. -/
theorem c1_counterexample :
    (TinyFunctionCall.parse ("<tool_call>\x7b\"name\": \"get_weather\", \"arguments\": \x7b\x7d\x7d</tool_call>")
        ("m") [getWeatherTool]).isOk = false := by
  decide

/-- C2 (amended): the TaggedBlock body normalizer returns the body unchanged
apart from line-break stripping whenever the line-break-stripped body contains
no doubled braces, and it undoes exactly one level of brace doubling on the
doubled body; the amendment restricts the no-doubled-braces condition to the
line-break-stripped body, because stripping a line break may itself create a
doubled brace which the normalizer then collapses. -/
theorem c2_normalizer :
    (∀ body : String,
        containsSubL ("\x7b\x7b".data) (TinyFunctionCall.stripLineBreaks body.data) = false →
        containsSubL ("\x7d\x7d".data) (TinyFunctionCall.stripLineBreaks body.data) = false →
        TinyFunctionCall.normalizeBody body = String.mk (TinyFunctionCall.stripLineBreaks body.data))
  ∧ TinyFunctionCall.normalizeBody ("\x7b\x7b\"name\": \"x\"\x7d\x7d") = "\x7b\"name\": \"x\"\x7d" := by
  constructor
  · intro body h1 h2
    unfold TinyFunctionCall.normalizeBody
    rw [replaceAllL_of_not_contains _ _ _ h1, replaceAllL_of_not_contains _ _ _ h2]
  · decide

/-- C2 witness: a single-braced body without line breaks is left unchanged by
the normalizer. -/
theorem c2_witness :
    TinyFunctionCall.normalizeBody ("\x7b\"a\": 1\x7d") =
      String.mk (TinyFunctionCall.stripLineBreaks (("\x7b\"a\": 1\x7d").data)) :=
  c2_normalizer.1 ("\x7b\"a\": 1\x7d") (by decide) (by decide)

/-- C2 counterexample: the body made of an opening brace, a line break and an
opening brace contains no doubled braces, yet normalization does not return
its line-break-stripped form: stripping the line break creates a doubled
opening brace which the collapse step then removes. -/
theorem c2_counterexample :
    containsSubL ("\x7b\x7b".data) (("\x7b\n\x7b").data) = false
  ∧ containsSubL ("\x7d\x7d".data) (("\x7b\n\x7b").data) = false
  ∧ TinyFunctionCall.normalizeBody ("\x7b\n\x7b") ≠
      String.mk (TinyFunctionCall.stripLineBreaks (("\x7b\n\x7b").data)) := by
  refine ⟨by decide, by decide, by decide⟩

/-- C3: for every FencedJSON input that decodes to an intent whose name
matches no registered tool, parse fails and the message content is exactly
the plain text Tool not found, with no wrapping markers. -/
theorem c3_unknown_tool (input model_name : String) (tools : List Tool)
    (sig : GorillaFunctionCallSignature)
    (hdec : decodeGorillaSignature (GorillaFunctionCall.clean_tool_call input) = Except.ok sig)
    (hfind : tools.find? (fun t => t.name == sig.name) = none) :
    GorillaFunctionCall.parse input model_name tools =
      Except.error (GorillaFunctionCall.error_handler ("Tool not found"))
    ∧ (GorillaFunctionCall.error_handler ("Tool not found")).message =
        some (ChatMessage.assistant ("Tool not found")) := by
  constructor
  · simp only [GorillaFunctionCall.parse, hdec, hfind]
  · rfl

/-- C3 witness: the fenced scenario input against an empty registry fails
with content exactly Tool not found. -/
theorem c3_witness :
    GorillaFunctionCall.parse ("```json\n\x7b\"name\":\"missing\",\"arguments\":\x7b\x7d\x7d\n```")
        ("m") [] =
      Except.error (GorillaFunctionCall.error_handler ("Tool not found"))
    ∧ (GorillaFunctionCall.error_handler ("Tool not found")).message =
        some (ChatMessage.assistant ("Tool not found")) :=
  c3_unknown_tool ("```json\n\x7b\"name\":\"missing\",\"arguments\":\x7b\x7d\x7d\n```") ("m") []
    ⟨"missing", Json.obj []⟩ rfl rfl

/-- C4: on TaggedBlock input in which no tagged region can be located, parse
fails with the fixed tag-extraction feedback message; the structural parser
is never consulted on this path, so the failure is never a JSON-parse
diagnostic. -/
theorem c4_missing_tag (input model_name : String) (tools : List Tool)
    (h : TinyFunctionCall.extract_tool_call input = none) :
    TinyFunctionCall.parse input model_name tools =
      Except.error (TinyFunctionCall.error_handler ("Error while extracting <tool_call> tags.")) := by
  simp only [TinyFunctionCall.parse, h]

/-- C4 witness: plain text without any tag yields the tag-extraction failure. -/
theorem c4_witness :
    TinyFunctionCall.parse ("hello") ("m") [] =
      Except.error (TinyFunctionCall.error_handler ("Error while extracting <tool_call> tags.")) :=
  c4_missing_tag ("hello") ("m") [] rfl

/-- C5: every failure outcome of TaggedBlock parse, whether from a missing
tag, a malformed body, an unknown tool name or a failing invocation, is the
output of the single error handler, so its message content is the fixed
feedback template with the error text embedded, wrapped between the response
tags. -/
theorem c5_error_via_handler (input model_name : String) (tools : List Tool)
    (r : ChatMessageResponse)
    (h : TinyFunctionCall.parse input model_name tools = Except.error r) :
    ∃ e : OllamaError, r = TinyFunctionCall.error_handler e ∧
      ∃ mid : String,
        r.message = some (ChatMessage.assistant ("<tool_response>\n" ++ mid ++ "</tool_response>")) := by
  unfold TinyFunctionCall.parse at h
  cases hex : TinyFunctionCall.extract_tool_call input with
  | none =>
    simp only [hex] at h
    injection h with h2
    refine ⟨"Error while extracting <tool_call> tags.", h2.symm, ?_⟩
    rw [← h2]
    exact tiny_handler_wrapped _
  | some body =>
    simp only [hex] at h
    cases hdec : decodeTinySignature body with
    | error e =>
      simp only [hdec] at h
      injection h with h2
      refine ⟨e, h2.symm, ?_⟩
      rw [← h2]
      exact tiny_handler_wrapped _
    | ok sig =>
      simp only [hdec] at h
      cases hfind : tools.find? (fun t => t.name == sig.name) with
      | none =>
        simp only [hfind] at h
        injection h with h2
        refine ⟨"Tool name not found", h2.symm, ?_⟩
        rw [← h2]
        exact tiny_handler_wrapped _
      | some tool =>
        simp only [hfind, TinyFunctionCall.function_call_with_history] at h
        cases hrun : tool.run sig.arguments with
        | ok res =>
          simp only [hrun] at h
          exact Except.noConfusion h
        | error e =>
          simp only [hrun] at h
          injection h with h2
          refine ⟨e, h2.symm, ?_⟩
          rw [← h2]
          exact tiny_handler_wrapped _

/-- C5 witness: a concrete failing parse, with its response equal to an
output of the error handler and its content wrapped in the response tags. -/
theorem c5_witness :
    ∃ e : OllamaError,
      TinyFunctionCall.error_handler ("Error while extracting <tool_call> tags.") =
        TinyFunctionCall.error_handler e ∧
      ∃ mid : String,
        (TinyFunctionCall.error_handler ("Error while extracting <tool_call> tags.")).message =
          some (ChatMessage.assistant ("<tool_response>\n" ++ mid ++ "</tool_response>")) :=
  c5_error_via_handler ("no tags here") ("m") []
    (TinyFunctionCall.error_handler ("Error while extracting <tool_call> tags.")) rfl

/-- C6: advertisement serialization round-trips: for every list of capability
descriptors, serializing each entry and extracting the name, the description
and the parameter schema from the nested function object of the declaration
returns the original values, and each declaration carries the discriminator
value function under its type field. -/
theorem c6_advert_roundtrip (tools : List Tool) :
    tools.map (fun t => advertName (convert_to_openai_tool t)) =
      tools.map (fun t => some (Json.str t.name))
  ∧ tools.map (fun t => advertDescription (convert_to_openai_tool t)) =
      tools.map (fun t => some (Json.str t.description))
  ∧ tools.map (fun t => advertParameterSchema (convert_to_openai_tool t)) =
      tools.map (fun t => some t.parameters)
  ∧ tools.map (fun t => advertType (convert_to_openai_tool t)) =
      tools.map (fun _ => some (Json.str ("function"))) :=
  ⟨rfl, rfl, rfl, rfl⟩

/-- C7 counterexample: on an input whose fences are surrounded by whitespace,
the body the code hands to structural parsing differs from the body obtained
by removing the fence markers first and trimming whitespace second: the code
trims the surrounding whitespace before it looks for the markers. -/
theorem c7_counterexample :
    GorillaFunctionCall.clean_tool_call ("\n```json\n\x7b\x7d\n```") ≠
      fencedExtractClaimed ("\n```json\n\x7b\x7d\n```") := by
  decide

/-- C7 (amended): the body handed to structural parsing equals the result of
trimming surrounding whitespace first, then stripping leading json fence
markers and trailing fence markers, each repeatedly, then trimming again the
whitespace the markers exposed. -/
theorem c7_fenced_extraction_order :
    (∀ s : String, GorillaFunctionCall.clean_tool_call s = fencedExtractAmended s)
  ∧ GorillaFunctionCall.clean_tool_call ("```json\n\x7b\"name\":\"x\"\x7d\n```") =
      "\x7b\"name\":\"x\"\x7d" :=
  ⟨fun _ => rfl, by decide⟩

/-- C8: in both dialects, once an intent is decoded, a capability is invoked
exactly when the registry holds an entry whose name equals the claimed name
under exact case-sensitive string equality; the first such entry in registry
order is the one dispatched, and otherwise the unknown-tool failure of the
dialect is produced. -/
theorem c8_exact_lookup
    (gInput tInput tBody model_name : String) (gTools tTools : List Tool)
    (gSig : GorillaFunctionCallSignature) (tSig : TinyFunctionCallSignature)
    (hg : decodeGorillaSignature (GorillaFunctionCall.clean_tool_call gInput) = Except.ok gSig)
    (ht : TinyFunctionCall.extract_tool_call tInput = some tBody)
    (ht2 : decodeTinySignature tBody = Except.ok tSig) :
    GorillaFunctionCall.parse gInput model_name gTools =
      (match gTools.find? (fun t => t.name == gSig.name) with
        | some tool => GorillaFunctionCall.function_call_with_history model_name gSig.arguments tool
        | none => Except.error (GorillaFunctionCall.error_handler ("Tool not found")))
  ∧ TinyFunctionCall.parse tInput model_name tTools =
      (match tTools.find? (fun t => t.name == tSig.name) with
        | some tool => TinyFunctionCall.function_call_with_history model_name tSig.arguments tool
        | none => Except.error (TinyFunctionCall.error_handler ("Tool name not found"))) := by
  constructor
  · simp only [GorillaFunctionCall.parse, hg]
  · simp only [TinyFunctionCall.parse, ht, ht2]

/-- C8 witness: a claimed name differing from the registered name only in
letter case yields the unknown-tool failure, and with two entries of the same
name the first one in registry order is the one invoked. -/
theorem c8_witness :
    GorillaFunctionCall.parse ("\x7b\"name\":\"Weather\",\"arguments\":1\x7d") ("m") [toolWeatherLower] =
      Except.error (GorillaFunctionCall.error_handler ("Tool not found"))
  ∧ TinyFunctionCall.parse ("<tool_call>\x7b\"name\":\"dup\",\"arguments\":1\x7d</tool_call>") ("m")
        [toolDupA, toolDupB] =
      Except.ok
        { model := "m"
          created_at := ""
          message := some (ChatMessage.assistant ("<tool_response>\nA\n</tool_response>\n"))
          done := true
          final_data := none } := by
  have h := c8_exact_lookup ("\x7b\"name\":\"Weather\",\"arguments\":1\x7d")
    ("<tool_call>\x7b\"name\":\"dup\",\"arguments\":1\x7d</tool_call>")
    ("\x7b\"name\":\"dup\",\"arguments\":1\x7d") ("m") [toolWeatherLower] [toolDupA, toolDupB]
    ⟨"Weather", Json.num 1⟩ ⟨"dup", Json.num 1⟩ rfl rfl rfl
  exact ⟨h.1, h.2⟩

/-- C9: the FencedJSON dialect leaves the query and response hooks at the
identity defaults of the shared trait. -/
theorem c9_fenced_identity_hooks (s : String) :
    GorillaFunctionCall.format_query s = s ∧ GorillaFunctionCall.format_response s = s :=
  ⟨rfl, rfl⟩

/-- C10: every turn response produced by parse in either dialect, on the
success and on the failure path, has its completion flag set and its message
present; failure responses carry an empty model name and an empty timestamp,
while the success path records the originating model name. -/
theorem c10_response_invariants (input model_name : String) (tools : List Tool) :
    (match GorillaFunctionCall.parse input model_name tools with
      | .ok r => r.done = true ∧ r.message.isSome = true ∧ r.model = model_name
      | .error r => r.done = true ∧ r.message.isSome = true ∧ r.model = "" ∧ r.created_at = "")
  ∧ (match TinyFunctionCall.parse input model_name tools with
      | .ok r => r.done = true ∧ r.message.isSome = true ∧ r.model = model_name
      | .error r => r.done = true ∧ r.message.isSome = true ∧ r.model = "" ∧ r.created_at = "") := by
  constructor
  · unfold GorillaFunctionCall.parse GorillaFunctionCall.function_call_with_history
    split <;> rename_i r heq <;> (repeat' split at heq) <;> cases heq <;>
      simp [GorillaFunctionCall.error_handler]
  · unfold TinyFunctionCall.parse TinyFunctionCall.function_call_with_history
    split <;> rename_i r heq <;> (repeat' split at heq) <;> cases heq <;>
      simp [TinyFunctionCall.error_handler]
